import Mathlib

/-!
Verification of the bookworm repository's `open_book.py` utility.

The script is (comments elided):

  if __name__ == '__main__':
      FILEBROWSER_PATH = os.path.join(os.getenv('WINDIR'), 'explorer.exe')
      subprocess.Popen(f'{FILEBROWSER_PATH} /select,"{sys.argv[1]}"')

We embed it shallowly: the environment is a map from variable names to
optional values, the command line is a list of strings (argv[0] is the
script name), the filesystem is an abstract predicate telling which
executables exist, and the eventual exit status of a spawned process is
an abstract oracle (consulted only by `wait()`/`poll()`, which the script
never calls).  Running the script yields either the command string handed
to `subprocess.Popen` or the uncaught Python exception that terminates it,
together with the list of observable side effects.
-/

/-- The uncaught Python exceptions the script can terminate with:
`TypeError` from `os.path.join(None, 'explorer.exe')` when `WINDIR` is
unset, `IndexError` from `sys.argv[1]` when no argument was passed, and
`FileNotFoundError` from `subprocess.Popen` when the executable named in
the command is absent. -/
inductive PyError where
  | typeError
  | indexError
  | fileNotFoundError
deriving DecidableEq, Repr

/-- Observable side effects a run of the script could emit.  The
constructors beyond `spawn` exist so that the frame property "no file
writes, no network I/O" is expressible; the script never emits them. -/
inductive Effect where
  | spawn (cmd : String)
  | fileWrite (path : String)
  | network (endpoint : String)
deriving DecidableEq, Repr

/-- `os.path.join(head, tail)` (Windows `ntpath.join`) specialised to a
relative, drive-letterless `tail` such as `'explorer.exe'`: the tail is
appended, with a backslash separator inserted unless `head` is empty or
already ends in a separator or a drive colon. -/
def os_path_join (head tail : String) : String :=
  match head.data.getLast? with
  | none => tail
  | some c => if c = '\\' ∨ c = '/' ∨ c = ':' then head ++ tail else head ++ "\\" ++ tail

/-- Line 9 of the script: `os.path.join(os.getenv('WINDIR'), 'explorer.exe')`
for a set `WINDIR`. -/
def FILEBROWSER_PATH (windir : String) : String :=
  os_path_join windir "explorer.exe"

/-- The selection argument embedded in the f-string on line 10:
`/select,"<p>"` with the path `p` spliced in verbatim. -/
def launchArg (p : String) : String :=
  "/select,\"" ++ p ++ "\""

/-- The whole string the f-string on line 10 builds and hands to
`subprocess.Popen`: `f'{FILEBROWSER_PATH} /select,"{sys.argv[1]}"'`. -/
def popenCommand (fb p : String) : String :=
  fb ++ " /select,\"" ++ p ++ "\""

/-- The `__main__` block of `open_book.py`.

* `fileExists` abstracts the filesystem consulted by process creation:
  `subprocess.Popen` raises `FileNotFoundError` iff the file-explorer
  executable named by the command is absent.
* `exitStatus` is the eventual exit status the operating system would
  report for a spawned command; only `wait()`/`poll()`/`communicate()`
  read it, and the script calls none of them, so the parameter is unused.
* `env` is the process environment read by `os.getenv`.
* `argv` is `sys.argv`, script name first.

The result is the script's termination — `Except.ok cmd` for a normal
exit after `Popen(cmd)` returned, `Except.error e` for an uncaught
exception (nothing in the script catches one) — paired with the emitted
side effects, in order. -/
def open_book (fileExists : String → Bool) (exitStatus : String → Int)
    (env : String → Option String) (argv : List String) :
    Except PyError String × List Effect :=
  match env "WINDIR" with
  | none => (Except.error PyError.typeError, [])
  | some w =>
    match argv[1]? with
    | none => (Except.error PyError.indexError, [])
    | some p =>
      if fileExists (FILEBROWSER_PATH w) then
        (Except.ok (popenCommand (FILEBROWSER_PATH w) p),
          [Effect.spawn (popenCommand (FILEBROWSER_PATH w) p)])
      else
        (Except.error PyError.fileNotFoundError, [])

/-- A concrete environment with only `WINDIR` set, for witnesses. -/
def envWin : String → Option String :=
  fun s => if s = "WINDIR" then some "C:\\Windows" else none

/-- A concrete filesystem in which every executable exists. -/
def fsAll : String → Bool := fun _ => true

/-- A concrete filesystem in which no executable exists. -/
def fsNone : String → Bool := fun _ => false

/-- A concrete exit-status oracle. -/
def exit0 : String → Int := fun _ => 0

/-- Parse-back of a quoted argument: the characters strictly between the
first double quote of `s` and the next one. -/
def betweenQuotes (s : String) : String :=
  String.mk ((((s.data).dropWhile (fun c => c ≠ '"')).drop 1).takeWhile (fun c => c ≠ '"'))

/-- Number of double-quote characters in a string. -/
def countQuotes (s : String) : Nat :=
  s.data.count '"'

/-- Quote-aware command-line tokenisation: split on spaces that occur
outside double quotes, keeping the quote characters.  `inQ` says whether
we are inside quotes, `cur` is the current token (reversed), `acc` the
finished tokens (reversed). -/
def tokGo : Bool → List Char → List Char → List (List Char) → List (List Char)
  | _, cur, [], acc =>
    (if cur = [] then acc else cur.reverse :: acc).reverse
  | inQ, cur, c :: rest, acc =>
    if c = ' ' ∧ inQ = false then
      tokGo false [] rest (if cur = [] then acc else cur.reverse :: acc)
    else
      tokGo (if c = '"' then !inQ else inQ) (c :: cur) rest acc

/-- Split a command line into tokens at unquoted spaces. -/
def quoteAwareTokens (s : String) : List String :=
  (tokGo false [] s.data []).map String.mk

-- Basic sanity checks of the embedding on concrete values.
example : os_path_join "C:\\Windows" "explorer.exe" = "C:\\Windows\\explorer.exe" := rfl
example : os_path_join "C:\\Windows\\" "explorer.exe" = "C:\\Windows\\explorer.exe" := rfl
example : os_path_join "" "explorer.exe" = "explorer.exe" := rfl
example : launchArg "a b" = "/select,\"a b\"" := rfl
example : quoteAwareTokens "x y" = ["x", "y"] := rfl
example : quoteAwareTokens "\"x y\"" = ["\"x y\""] := rfl

theorem mk_data (s : String) : String.mk s.data = s := by
  cases s; rfl

theorem data_launchArg (p : String) :
    (launchArg p).data = "/select,\"".data ++ p.data ++ ['"'] := by
  simp [launchArg]

theorem dropWhile_select_headPart (rest : List Char) :
    List.dropWhile (fun c => c ≠ '"') ("/select,\"".data ++ rest) = '"' :: rest := rfl

theorem takeWhile_no_quote (l : List Char) (h : '"' ∉ l) :
    List.takeWhile (fun c => c ≠ '"') (l ++ ['"']) = l := by
  induction l with
  | nil => rfl
  | cons a t ih =>
    have ha : a ≠ '"' := fun hc => h (by simp [hc])
    have ht : '"' ∉ t := fun hc => h (List.mem_cons_of_mem a hc)
    rw [List.cons_append, List.takeWhile_cons_of_pos (by simpa using ha), ih ht]

/-- **C1.** For every path `p` without a double quote, the launch argument
is exactly the token `/select,"<p>"` — `p` verbatim between one pair of
literal double quotes — and parsing the quoted part back recovers `p`
unmodified (no escaping was applied). -/
theorem c1_launchArg_verbatim (p : String) (h : '"' ∉ p.data) :
    launchArg p = "/select," ++ "\"" ++ p ++ "\"" ∧
    betweenQuotes (launchArg p) = p := by
  constructor
  · simp [launchArg]
  · unfold betweenQuotes
    rw [data_launchArg, List.append_assoc, dropWhile_select_headPart]
    simp only [List.drop_one, List.tail_cons]
    rw [takeWhile_no_quote p.data h, mk_data]

/-- Witness for C1 at the concrete path `C:\x.txt`. -/
theorem c1_witness :
    launchArg "C:\\x.txt" = "/select," ++ "\"" ++ "C:\\x.txt" ++ "\"" ∧
    betweenQuotes (launchArg "C:\\x.txt") = "C:\\x.txt" :=
  c1_launchArg_verbatim "C:\\x.txt" (by decide)

/-- **C2.** If `WINDIR` is unset, the run terminates with the uncaught
`TypeError` from `os.path.join(None, 'explorer.exe')` on line 9, before
the `Popen` call on line 10 is reached: no process is spawned. -/
theorem c2_windir_unset_fails_before_spawn (fileExists : String → Bool)
    (exitStatus : String → Int) (env : String → Option String) (argv : List String)
    (h : env "WINDIR" = none) :
    open_book fileExists exitStatus env argv = (Except.error PyError.typeError, []) := by
  simp [open_book, h]

/-- Witness for C2: `WINDIR` absent from a concrete empty environment. -/
theorem c2_witness :
    open_book fsAll exit0 (fun _ => none) ["open_book.py", "C:\\x.txt"] =
      (Except.error PyError.typeError, []) :=
  c2_windir_unset_fails_before_spawn fsAll exit0 (fun _ => none)
    ["open_book.py", "C:\\x.txt"] rfl

/-- **C3.** With no command-line argument (`argv` has no element at index 1),
the run terminates with the uncaught `IndexError` from `sys.argv[1]` and no
process is spawned. -/
theorem c3_missing_argument_fails (fileExists : String → Bool)
    (exitStatus : String → Int) (env : String → Option String) (argv : List String)
    (w : String) (hw : env "WINDIR" = some w) (hargv : argv[1]? = none) :
    open_book fileExists exitStatus env argv = (Except.error PyError.indexError, []) := by
  simp [open_book, hw, hargv]

/-- Witness for C3: invocation with the script name alone. -/
theorem c3_witness :
    open_book fsAll exit0 envWin ["open_book.py"] =
      (Except.error PyError.indexError, []) :=
  c3_missing_argument_fails fsAll exit0 envWin ["open_book.py"] "C:\\Windows" rfl rfl

/-- **C4.** If the resolved file-explorer executable does not exist, the
`Popen` call raises `FileNotFoundError`; nothing in the script catches it,
so it terminates the run, and no process is spawned. -/
theorem c4_missing_executable_fault_propagates (fileExists : String → Bool)
    (exitStatus : String → Int) (env : String → Option String) (argv : List String)
    (w p : String) (hw : env "WINDIR" = some w) (hp : argv[1]? = some p)
    (hfe : fileExists (FILEBROWSER_PATH w) = false) :
    open_book fileExists exitStatus env argv =
      (Except.error PyError.fileNotFoundError, []) := by
  simp [open_book, hw, hp, hfe]

/-- Witness for C4: a filesystem with no executables. -/
theorem c4_witness :
    open_book fsNone exit0 envWin ["open_book.py", "C:\\x.txt"] =
      (Except.error PyError.fileNotFoundError, []) :=
  c4_missing_executable_fault_propagates fsNone exit0 envWin
    ["open_book.py", "C:\\x.txt"] "C:\\Windows" "C:\\x.txt" rfl rfl rfl

/-- **C5.** The script never waits on the spawned process: its outcome and
effects are identical under any two exit-status oracles (it never observes,
reports, or depends on the spawned process's exit status), and it
terminates right after the spawn — the effect trace is empty or exactly
the one spawn, with the run returning immediately with that command. -/
theorem c5_never_waits_on_child (fileExists : String → Bool)
    (exitStatus₁ exitStatus₂ : String → Int) (env : String → Option String)
    (argv : List String) :
    open_book fileExists exitStatus₁ env argv = open_book fileExists exitStatus₂ env argv ∧
    ((open_book fileExists exitStatus₁ env argv).2 = [] ∨
      ∃ c, (open_book fileExists exitStatus₁ env argv).2 = [Effect.spawn c] ∧
        (open_book fileExists exitStatus₁ env argv).1 = Except.ok c) := by
  refine ⟨rfl, ?_⟩
  unfold open_book
  split
  · simp
  · split
    · simp
    · split
      · exact Or.inr ⟨_, rfl, rfl⟩
      · simp

/-- **C6.** For the path `C:\Users\me\My Documents\file.txt`, which contains
an embedded space, the produced argument is exactly
`/select,"C:\Users\me\My Documents\file.txt"`, and quote-aware
tokenisation keeps it as a single token, not split at the space. -/
theorem c6_spaces_form_single_token :
    launchArg "C:\\Users\\me\\My Documents\\file.txt" =
      "/select,\"C:\\Users\\me\\My Documents\\file.txt\"" ∧
    quoteAwareTokens (launchArg "C:\\Users\\me\\My Documents\\file.txt") =
      [launchArg "C:\\Users\\me\\My Documents\\file.txt"] :=
  ⟨rfl, rfl⟩

/-- **C7.** The explorer executable is resolved deterministically as
`explorer.exe` joined beneath the directory named by `WINDIR` and nothing
else: two environments agreeing on `WINDIR` produce identical runs (no
other variable, fallback, or search is consulted), and every spawned
command names exactly `os.path.join(WINDIR, 'explorer.exe')` as its
executable. -/
theorem c7_explorer_path_resolution :
    (∀ (fileExists : String → Bool) (exitStatus : String → Int)
        (env₁ env₂ : String → Option String) (argv : List String),
        env₁ "WINDIR" = env₂ "WINDIR" →
        open_book fileExists exitStatus env₁ argv =
          open_book fileExists exitStatus env₂ argv) ∧
    (∀ (fileExists : String → Bool) (exitStatus : String → Int)
        (env : String → Option String) (argv : List String) (cmd : String),
        (open_book fileExists exitStatus env argv).1 = Except.ok cmd →
        ∃ w p, env "WINDIR" = some w ∧ argv[1]? = some p ∧
          fileExists (os_path_join w "explorer.exe") = true ∧
          cmd = popenCommand (os_path_join w "explorer.exe") p) := by
  constructor
  · intro fileExists exitStatus env₁ env₂ argv h
    unfold open_book
    rw [h]
  · intro fileExists exitStatus env argv cmd h
    cases henv : env "WINDIR" with
    | none => simp [open_book, henv] at h
    | some w =>
      cases harg : argv[1]? with
      | none => simp [open_book, henv, harg] at h
      | some p =>
        cases hfe : fileExists (FILEBROWSER_PATH w) with
        | false => simp [open_book, henv, harg, hfe] at h
        | true =>
          simp [open_book, henv, harg, hfe] at h
          exact ⟨w, p, rfl, rfl, hfe, h.symm⟩

/-- **C8.** On any run, every emitted effect is a process spawn (never a
file write or network access), at most one process is spawned, and a
successful run spawns exactly the one process whose command it returns. -/
theorem c8_only_effect_is_one_spawn (fileExists : String → Bool)
    (exitStatus : String → Int) (env : String → Option String) (argv : List String) :
    (∀ e ∈ (open_book fileExists exitStatus env argv).2, ∃ c, e = Effect.spawn c) ∧
    (open_book fileExists exitStatus env argv).2.length ≤ 1 ∧
    (∀ cmd, (open_book fileExists exitStatus env argv).1 = Except.ok cmd →
      (open_book fileExists exitStatus env argv).2 = [Effect.spawn cmd]) := by
  unfold open_book
  split
  · simp
  · split
    · simp
    · split
      · refine ⟨?_, by simp, ?_⟩
        · intro e he
          simp at he
          exact ⟨_, he⟩
        · intro cmd hcmd
          simp only [Except.ok.injEq] at hcmd
          rw [hcmd]
      · simp

/-- **C9.** Arguments beyond the first are silently ignored: two
invocations sharing the environment, filesystem and `argv[1]` behave
identically whatever `argv[2:]` is, and extra arguments raise no error. -/
theorem c9_extra_args_ignored (fileExists : String → Bool) (exitStatus : String → Int)
    (env : String → Option String) (a₀ a₁ : String) (rest₁ rest₂ : List String) :
    open_book fileExists exitStatus env (a₀ :: a₁ :: rest₁) =
      open_book fileExists exitStatus env (a₀ :: a₁ :: rest₂) := by
  unfold open_book
  cases env "WINDIR" <;> simp

/-- **C10 counterexample.** The path `a"b"` contains a double quote and is
embedded verbatim — the run still spawns — but the constructed argument
contains 4 double quotes, an even number, refuting the claimed odd total. -/
theorem c10_counterexample :
    '"' ∈ ("a\"b\"" : String).data ∧
    (open_book fsAll exit0 envWin ["open_book.py", "a\"b\""]).1 =
      Except.ok (popenCommand "C:\\Windows\\explorer.exe" "a\"b\"") ∧
    countQuotes (launchArg "a\"b\"") = 4 ∧
    ¬ Odd (countQuotes (launchArg "a\"b\"")) :=
  ⟨by decide, rfl, by decide, by decide⟩

/-- **C10 (amended).** A path containing a double quote is embedded
verbatim, with no escaping and no rejection: the run still spawns the
process, and the constructed argument contains `2 + k` double quotes where
`k` is the number of quotes in the path — odd exactly when `k` is odd
(in particular for a path with a single quote), even otherwise. -/
theorem c10_quote_embedded_verbatim (fileExists : String → Bool)
    (exitStatus : String → Int) (env : String → Option String)
    (a₀ p w : String) (rest : List String)
    (hq : '"' ∈ p.data) (hw : env "WINDIR" = some w)
    (hfe : fileExists (FILEBROWSER_PATH w) = true) :
    open_book fileExists exitStatus env (a₀ :: p :: rest) =
      (Except.ok (popenCommand (FILEBROWSER_PATH w) p),
        [Effect.spawn (popenCommand (FILEBROWSER_PATH w) p)]) ∧
    launchArg p = "/select,\"" ++ p ++ "\"" ∧
    countQuotes (launchArg p) = 2 + countQuotes p ∧
    (Odd (countQuotes (launchArg p)) ↔ Odd (countQuotes p)) := by
  have hcount : countQuotes (launchArg p) = 2 + countQuotes p := by
    simp [countQuotes, data_launchArg, List.count_append]
    omega
  refine ⟨by simp [open_book, hw, hfe], rfl, hcount, ?_⟩
  rw [hcount]
  simp [Nat.odd_iff]

/-- Witness for the amended C10 at the path `a"b`, which contains one
double quote: 3 quotes in the argument, an odd number, and the spawn
still happens. -/
theorem c10_witness :
    open_book fsAll exit0 envWin ["open_book.py", "a\"b"] =
      (Except.ok (popenCommand (FILEBROWSER_PATH "C:\\Windows") "a\"b"),
        [Effect.spawn (popenCommand (FILEBROWSER_PATH "C:\\Windows") "a\"b")]) ∧
    launchArg "a\"b" = "/select,\"" ++ "a\"b" ++ "\"" ∧
    countQuotes (launchArg "a\"b") = 2 + countQuotes "a\"b" ∧
    (Odd (countQuotes (launchArg "a\"b")) ↔ Odd (countQuotes "a\"b")) :=
  c10_quote_embedded_verbatim fsAll exit0 envWin "open_book.py" "a\"b" "C:\\Windows"
    [] (by decide) rfl rfl
